import Mathlib

/-!
# Verification of the staged transformation-chain dashboard and the MET palette dashboard

This file gives a shallow embedding of the two Streamlit applications in
`src/app.py` and proves the specified properties about them.

The first application (lines 1-171 of `app.py`) is a linear text → image → text
transformation chain driven by a `step` counter held in `st.session_state`,
with the three stage functions memoized by `st.cache_data`.  We model one full
script execution (a Streamlit "rerun") as a function `scriptRun` on the session
state paired with the process-global memoization cache, triggered by a user
event (typing into a widget, clicking a button, or a plain rerun).  External
capabilities (the OpenAI chat, image and vision endpoints) are opaque
parameters returning `Except`, and the source's exception handlers that turn
exceptions into sentinel strings are translated directly.

The second application (lines 174-456) contributes the pure functions
`search_artworks` (modulo an opaque HTTP oracle) and `simulate_palette_data`
(modulo an opaque seeded pseudo-random generator mirroring `np.random`).
-/

namespace TransformChain

/-- Python's `str.startswith(p)`: the character sequence of `p` is a prefix of
the character sequence of `s`. -/
def startswith (s p : String) : Bool :=
  p.data.isPrefixOf s.data

/-- Streamlit truthiness test on an optional string session value:
`None` and the empty string are falsy, every other string is truthy. -/
def truthy : Option String → Bool
  | none => false
  | some s => decide (s ≠ "")

/-- The three external capabilities the first app delegates to (OpenAI chat
completion for stage 1, image generation for stage 2, vision description for
stage 3).  Each may fail, which the source observes as a raised exception. -/
structure Caps where
  textGen : String → String → Except String String
  imageGen : Option String → Except String String
  vision : Option String → Except String String

/-- Function `generate_start_text` (app.py lines 29-44): returns the capability's text,
or the sentinel string built by the `except` clause. -/
def generate_start_text (caps : Caps) (topic role : String) : String :=
  match caps.textGen topic role with
  | .ok content => content
  | .error e => "텍스트 생성 오류: " ++ e

/-- Function `generate_image_from_text` (app.py lines 46-60): returns the image URL, or
the sentinel string built by the `except` clause. -/
def generate_image_from_text (caps : Caps) (prompt : Option String) : String :=
  match caps.imageGen prompt with
  | .ok url => url
  | .error e => "이미지 생성 오류: " ++ e

/-- Function `analyze_image_to_text` (app.py lines 62-78): returns the description, or
the sentinel string built by the `except` clause. -/
def analyze_image_to_text (caps : Caps) (image_url : Option String) : String :=
  match caps.vision image_url with
  | .ok content => content
  | .error e => "이미지 분석 오류: " ++ e

/-- The process-global `st.cache_data` state: one memoization table per
decorated function, keyed by the serialized argument tuple, plus an
instrumentation counter per underlying capability (the spec's call-counting
stub).  This state survives reruns and the sidebar reset, which only touches
`st.session_state`. -/
structure CacheState where
  textCache : List ((String × String) × String)
  imageCache : List (Option String × String)
  visionCache : List (Option String × String)
  nText : Nat
  nImage : Nat
  nVision : Nat
deriving DecidableEq

def CacheState.empty : CacheState := ⟨[], [], [], 0, 0, 0⟩

/-- The `st.cache_data` wrapper around `generate_start_text`: on a key hit the
cached value is returned and the capability is not invoked. -/
def cached_start_text (caps : Caps) (topic role : String) (c : CacheState) :
    String × CacheState :=
  match c.textCache.lookup (topic, role) with
  | some v => (v, c)
  | none =>
    let v := generate_start_text caps topic role
    (v, { c with textCache := ((topic, role), v) :: c.textCache, nText := c.nText + 1 })

/-- The `st.cache_data` wrapper around `generate_image_from_text`. -/
def cached_image (caps : Caps) (prompt : Option String) (c : CacheState) :
    String × CacheState :=
  match c.imageCache.lookup prompt with
  | some v => (v, c)
  | none =>
    let v := generate_image_from_text caps prompt
    (v, { c with imageCache := (prompt, v) :: c.imageCache, nImage := c.nImage + 1 })

/-- The `st.cache_data` wrapper around `analyze_image_to_text`. -/
def cached_vision (caps : Caps) (image_url : Option String) (c : CacheState) :
    String × CacheState :=
  match c.visionCache.lookup image_url with
  | some v => (v, c)
  | none =>
    let v := analyze_image_to_text caps image_url
    (v, { c with visionCache := (image_url, v) :: c.visionCache, nVision := c.nVision + 1 })

/-- The `st.session_state` of the first app.  `none` on `step` means the key
is absent (fresh session, or just deleted by the reset button), which makes
the initialization block run.  `topic_input` / `role_select` are the widget
keys of the two sidebar widgets; `none` means the widget key was deleted, so
the widget reverts to its declared default on the next run. -/
structure AppState where
  step : Option Nat
  start_text : Option String
  image_url : Option String
  final_text : Option String
  user_topic : String
  start_role : String
  topic_input : Option String
  role_select : Option String
deriving DecidableEq

/-- A fresh session: no keys exist yet. -/
def initState : AppState :=
  { step := none, start_text := none, image_url := none, final_text := none
    user_topic := "", start_role := "", topic_input := none, role_select := none }

/-- The user interaction that triggers one script run: editing a sidebar
widget, clicking one of the four buttons, or a plain rerun (as issued by
`st.rerun()`). -/
inductive Ev where
  | setTopic (t : String)
  | setRole (r : String)
  | clickStart
  | clickReset
  | clickStep2
  | clickStep3
  | rerun
deriving DecidableEq

/-- Session state paired with the process-global cache. -/
abbrev World := AppState × CacheState

/-- The session-state initialization block (app.py lines 17-24), run when the
`step` key is absent. -/
def initPhase (s : AppState) : AppState :=
  if s.step = none then
    { s with step := some 0, start_text := none, image_url := none,
             final_text := none, user_topic := "", start_role := "AI 시인" }
  else s

/-- The sidebar widgets (app.py lines 90-91): record the edit the event
carries (if any), then assign each widget's value — or its declared default,
when the widget key is absent — into `user_topic` / `start_role`. -/
def widgetPhase (ev : Ev) (s : AppState) : AppState :=
  let s := match ev with
    | .setTopic t => { s with topic_input := some t }
    | .setRole r => { s with role_select := some r }
    | _ => s
  { s with user_topic := s.topic_input.getD "미래 도시의 고독",
           topic_input := some (s.topic_input.getD "미래 도시의 고독"),
           start_role := s.role_select.getD "AI 시인",
           role_select := some (s.role_select.getD "AI 시인") }

/-- The start button (app.py lines 93-98). -/
def startPhase (ev : Ev) (s : AppState) : AppState :=
  if ev = .clickStart then
    { s with step := some 1, start_text := none, image_url := none, final_text := none }
  else s

/-- The remainder of the script after the sidebar (app.py lines 100-158).
`st.rerun()` aborts the remainder of the script, which the if-chain mirrors:
every branch that ends in `st.rerun()` returns immediately.  Display-only
statements are omitted; the button guards reproduce the conditions under
which each button is rendered. -/
def bodyRun (caps : Caps) (ev : Ev) (s : AppState) (c : CacheState) : World :=
  -- reset button (lines 100-104), rendered only when step > 0: delete every
  -- session key except user_topic and start_role, then rerun
  if ev = .clickReset ∧ s.step.getD 0 > 0 then
    ({ step := none, start_text := none, image_url := none, final_text := none,
       user_topic := s.user_topic, start_role := s.start_role,
       topic_input := none, role_select := none }, c)
  else
  -- Step 1 (lines 115-118)
  if s.step = some 1 then
    let r := cached_start_text caps s.user_topic s.start_role c
    ({ s with start_text := some r.1, step := some 2 }, r.2)
  else
  -- Step-2 button (lines 120-125), rendered under `if start_text:`
  if truthy s.start_text ∧ ev = .clickStep2 ∧ s.step = some 2 then
    ({ s with step := some 3 }, c)
  else
  -- Step 2 (lines 130-136)
  if s.step = some 3 then
    let r := cached_image caps s.start_text c
    if truthy (some r.1) ∧ startswith r.1 "이미지 생성 오류" = false then
      ({ s with image_url := some r.1, step := some 4 }, r.2)
    else
      ({ s with image_url := some r.1, step := some 99 }, r.2)
  else
  -- Step-3 button (lines 138-148), rendered under `if image_url:` and the
  -- non-error branch
  if truthy s.image_url ∧ startswith (s.image_url.getD "") "이미지 생성 오류" = false ∧
      ev = .clickStep3 ∧ s.step = some 4 then
    ({ s with step := some 5 }, c)
  else
  -- Step 3 (lines 155-158)
  if s.step = some 5 then
    let r := cached_vision caps s.image_url c
    ({ s with final_text := some r.1, step := some 6 }, r.2)
  else (s, c)

/-- One top-to-bottom execution of the first app's script, triggered by event
`ev`: the initialization block, the sidebar widgets, the start button, then
the body. -/
def scriptRun (caps : Caps) (ev : Ev) (w : World) : World :=
  bodyRun caps ev (startPhase ev (widgetPhase ev (initPhase w.1))) w.2

/-- A sequence of script runs. -/
def runTrace (caps : Caps) (w : World) : List Ev → World
  | [] => w
  | e :: es => runTrace caps (scriptRun caps e w) es

/-- The world of a fresh session with an empty process cache. -/
def world0 : World := (initState, CacheState.empty)

/-- The stage-4 display (app.py lines 160-171): rendered when `final_text` is
truthy, it computes `len(start_text)` and `len(final_text)`.  `none` in the
inner match corresponds to `len(None)` raising `TypeError`. -/
def stage4_metrics (s : AppState) : Option (Nat × Nat) :=
  if truthy s.final_text then
    match s.start_text, s.final_text with
    | some a, some b => some (a.length, b.length)
    | _, _ => none
  else none

/-- A trace that stays inside one run: it contains neither the start button
nor the reset button, the only two ways to leave a terminal state. -/
def InRun (tr : List Ev) : Prop := ∀ e ∈ tr, e ≠ Ev.clickStart ∧ e ≠ Ev.clickReset

/-- The run invariant: once the step counter has passed a stage, that stage's
session artifact exists (and, for the image, passed the error-sentinel gate). -/
def Inv (s : AppState) : Prop :=
  ((s.step = some 3 ∨ s.step = some 4 ∨ s.step = some 5 ∨ s.step = some 6 ∨
      s.step = some 99) → truthy s.start_text = true)
  ∧ ((s.step = some 4 ∨ s.step = some 5) →
      truthy s.image_url = true ∧
        startswith (s.image_url.getD "") "이미지 생성 오류" = false)
  ∧ (truthy s.final_text = true → ∃ a, s.start_text = some a)

/-- A deterministic stub capability set used by witnesses and
counterexamples. -/
def stubCaps : Caps :=
  { textGen := fun _ _ => .ok "시"
    imageGen := fun _ => .ok "http-img"
    vision := fun _ => .ok "묘사" }

/-- A capability set whose text generation fails (the stage-1 call raises). -/
def failingTextCaps : Caps :=
  { textGen := fun _ _ => .error "boom"
    imageGen := fun _ => .ok "http-img"
    vision := fun _ => .ok "묘사" }

/-- A capability set whose image generation fails (the stage-2 call raises). -/
def failingImageCaps : Caps :=
  { textGen := fun _ _ => .ok "시"
    imageGen := fun _ => .error "img down"
    vision := fun _ => .ok "묘사" }

/-- A concrete session state sitting at step 3, about to run stage 2. -/
def step3State : AppState :=
  { step := some 3, start_text := some "시", image_url := none, final_text := none,
    user_topic := "미래 도시의 고독", start_role := "AI 시인",
    topic_input := some "미래 도시의 고독", role_select := some "AI 시인" }


end TransformChain

namespace MetDashboard

def MET_API_URL : String := "https://collectionapi.metmuseum.org/public/collection/v1/"

/-- The JSON body of a successful MET search response, as the source reads it:
`data.get('total', 0)` (`none` = key absent, defaulting to 0) and
`data.get('objectIDs', [])` (`none` = key absent; `some none` = the key holds
JSON `null`, which Python reads as `None`). -/
structure SearchResp where
  total : Option Nat
  objectIDs : Option (Option (List Nat))
deriving DecidableEq

/-- The URL built by `search_artworks` (app.py line 202). -/
def search_url (query : String) : String :=
  MET_API_URL ++ "search?q=" ++ query ++ "&hasImages=true&limit=20"

/-- Function `search_artworks` (app.py lines 195-209), over an opaque HTTP oracle.
`http` returning `.error` covers a raised request exception, a non-2xx status
(`raise_for_status`) and a JSON parse failure; all are caught by the `except`
clause, which returns `(0, [])`.  When `objectIDs` holds JSON `null`,
`data.get('objectIDs', [])` returns `None` and `None[:10]` raises `TypeError`
inside the `try`, so the `except` clause also returns `(0, [])`. -/
def search_artworks (http : String → Except String SearchResp) (query : String) :
    Nat × List Nat :=
  if query = "" then (0, [])
  else
    match http (search_url query) with
    | .error _ => (0, [])
    | .ok data =>
      match data.objectIDs with
      | some (some ids) => (data.total.getD 0, ids.take 10)
      | some none => (0, [])
      | none => (data.total.getD 0, [])

/-- The fixed color pool of `simulate_palette_data` (app.py lines 234-236). -/
def hex_options : List String :=
  ["#A2C4D8", "#F2E8D5", "#3A5C3C", "#F7DC6F", "#C4B4D8",
   "#5A7B8E", "#1D2E40", "#111111", "#F9F9F9", "#E74C3C",
   "#F1C40F", "#3498DB", "#C4A86A"]

/-- An opaque model of the `np.random` module as used by
`simulate_palette_data`: a generator state type, `seed`, a draw of five
distinct options (`np.random.choice(options, size=5, replace=False)`) and a
draw of five uniform values (`np.random.rand(5)`).  The two length fields are
NumPy's documented contract that `size=5` yields five elements.  Frequencies
are modelled as rationals rather than IEEE doubles; the claims proved below
do not depend on rounding. -/
structure NpRandom (σ : Type) where
  seed : Nat → σ
  choice5 : σ → List String → List String × σ
  rand5 : σ → List ℚ × σ
  choice5_length : ∀ s opts, (choice5 s opts).1.length = 5
  rand5_length : ∀ s, (rand5 s).1.length = 5

/-- One row of the DataFrame built by `simulate_palette_data`. -/
structure PaletteRow where
  Artist : String
  Artwork : String
  Color_HEX : String
  Frequency : ℚ
  Artwork_ID : Nat
deriving DecidableEq

/-- Function `simulate_palette_data` (app.py lines 230-250): seed the generator with
`object_id % 100`, draw five colors without replacement, draw five random
frequencies and normalize them by their sum, then assemble the five-row
table whose label columns repeat `artist`, `title` and `object_id`. -/
def simulate_palette_data {σ : Type} (R : NpRandom σ) (object_id : Nat)
    (title artist : String) : List PaletteRow :=
  let s0 := R.seed (object_id % 100)
  let ch := R.choice5 s0 hex_options
  let selected_hex := ch.1
  let rd := R.rand5 ch.2
  let frequencies := rd.1.map (fun x => x / rd.1.sum)
  (selected_hex.zip frequencies).map (fun p =>
    { Artist := artist, Artwork := title, Color_HEX := p.1,
      Frequency := p.2, Artwork_ID := object_id })

/-- A concrete, trivially deterministic `NpRandom` instance used to witness
the palette theorems. -/
def constRandom : NpRandom Unit where
  seed _ := ()
  choice5 _ opts := (List.replicate 5 (opts.headD ""), ())
  rand5 _ := ([1, 1, 1, 1, 1], ())
  choice5_length := by intro s opts; simp
  rand5_length := by intro s; rfl


def httpDown : String → Except String SearchResp := fun _ => .error "timeout"

def httpUp : String → Except String SearchResp :=
  fun _ => .ok { total := some 42, objectIDs := some (some [1, 2, 3, 4, 5, 6, 7, 8, 9, 10, 11, 12]) }

end MetDashboard

namespace TransformChain

theorem truthy_isSome {o : Option String} (h : truthy o = true) : ∃ a, o = some a := by
  cases o with
  | none => simp [truthy] at h
  | some a => exact ⟨a, rfl⟩

theorem widgetPhase_step (ev : Ev) (s : AppState) : (widgetPhase ev s).step = s.step := by
  cases ev <;> rfl

theorem widgetPhase_start_text (ev : Ev) (s : AppState) :
    (widgetPhase ev s).start_text = s.start_text := by
  cases ev <;> rfl

theorem widgetPhase_image_url (ev : Ev) (s : AppState) :
    (widgetPhase ev s).image_url = s.image_url := by
  cases ev <;> rfl

theorem widgetPhase_final_text (ev : Ev) (s : AppState) :
    (widgetPhase ev s).final_text = s.final_text := by
  cases ev <;> rfl

theorem initPhase_of_some {s : AppState} {n : Nat} (h : s.step = some n) :
    initPhase s = s := by
  unfold initPhase
  simp [h]

theorem startPhase_of_ne {ev : Ev} (s : AppState) (h : ev ≠ Ev.clickStart) :
    startPhase ev s = s := by
  unfold startPhase
  simp [h]

/-- The step value after the three sidebar phases. -/
theorem phases_step (ev : Ev) (s : AppState) :
    (startPhase ev (widgetPhase ev (initPhase s))).step
      = if ev = Ev.clickStart then some 1
        else if s.step = none then some 0 else s.step := by
  unfold startPhase initPhase
  split_ifs with h1 h2 <;>
    cases ev <;> simp_all [widgetPhase_step, widgetPhase]

theorem Inv_initPhase {s : AppState} (h : Inv s) : Inv (initPhase s) := by
  unfold initPhase
  split_ifs with hs
  · simp [Inv, truthy]
  · exact h

theorem Inv_widgetPhase {s : AppState} (ev : Ev) (h : Inv s) : Inv (widgetPhase ev s) := by
  unfold Inv at h ⊢
  rw [widgetPhase_step, widgetPhase_start_text, widgetPhase_image_url, widgetPhase_final_text]
  exact h

theorem Inv_startPhase {s : AppState} (ev : Ev) (h : Inv s) : Inv (startPhase ev s) := by
  unfold startPhase
  split_ifs with hs
  · simp [Inv, truthy]
  · exact h

theorem Inv_bodyRun (caps : Caps) (ev : Ev) {s : AppState} (c : CacheState) (h : Inv s) :
    Inv (bodyRun caps ev s c).1 := by
  obtain ⟨h1, h2, h3⟩ := h
  unfold bodyRun
  split_ifs with hreset hstep1 hbtn2 hstep3 hbtn3 hstep5
  · simp [Inv, truthy]
  · refine ⟨?_, ?_, ?_⟩ <;> simp_all [Inv]
  · refine ⟨?_, ?_, ?_⟩ <;> simp_all [Inv]
  · dsimp only
    split
    · refine ⟨?_, ?_, ?_⟩ <;> simp_all [Inv]
    · refine ⟨?_, ?_, ?_⟩ <;> simp_all [Inv]
  · refine ⟨?_, ?_, ?_⟩ <;> simp_all [Inv]
  · obtain ⟨a, ha⟩ := truthy_isSome (h1 (by simp [hstep5]))
    refine ⟨?_, ?_, ?_⟩ <;> simp_all [Inv]
  · exact ⟨h1, h2, h3⟩

theorem Inv_scriptRun (caps : Caps) (ev : Ev) {w : World} (h : Inv w.1) :
    Inv (scriptRun caps ev w).1 :=
  Inv_bodyRun caps ev w.2 (Inv_startPhase ev (Inv_widgetPhase ev (Inv_initPhase h)))

theorem Inv_runTrace (caps : Caps) (tr : List Ev) {w : World} (h : Inv w.1) :
    Inv (runTrace caps w tr).1 := by
  induction tr generalizing w with
  | nil => exact h
  | cons e es ih => exact ih (Inv_scriptRun caps e h)

theorem Inv_world0 : Inv world0.1 := by
  refine ⟨?_, ?_, ?_⟩ <;> simp [world0, initState, truthy]

/-- A stage-1 cache call touches only the stage-1 table and counter. -/
theorem cached_start_text_frame (caps : Caps) (topic role : String) (c : CacheState) :
    (cached_start_text caps topic role c).2.imageCache = c.imageCache
    ∧ (cached_start_text caps topic role c).2.visionCache = c.visionCache
    ∧ (cached_start_text caps topic role c).2.nImage = c.nImage
    ∧ (cached_start_text caps topic role c).2.nVision = c.nVision := by
  unfold cached_start_text
  cases c.textCache.lookup (topic, role) <;> simp

/-- A stage-2 cache call touches only the stage-2 table and counter. -/
theorem cached_image_frame (caps : Caps) (prompt : Option String) (c : CacheState) :
    (cached_image caps prompt c).2.textCache = c.textCache
    ∧ (cached_image caps prompt c).2.visionCache = c.visionCache
    ∧ (cached_image caps prompt c).2.nText = c.nText
    ∧ (cached_image caps prompt c).2.nVision = c.nVision := by
  unfold cached_image
  cases c.imageCache.lookup prompt <;> simp

/-- A stage-3 cache call touches only the stage-3 table and counter. -/
theorem cached_vision_frame (caps : Caps) (image_url : Option String) (c : CacheState) :
    (cached_vision caps image_url c).2.textCache = c.textCache
    ∧ (cached_vision caps image_url c).2.imageCache = c.imageCache
    ∧ (cached_vision caps image_url c).2.nText = c.nText
    ∧ (cached_vision caps image_url c).2.nImage = c.nImage := by
  unfold cached_vision
  cases c.visionCache.lookup image_url <;> simp


/-- From the Failed state (step 99), any event other than start/reset leaves
the step counter, all three artifacts and the whole cache untouched. -/
theorem scriptRun_frozen (caps : Caps) (ev : Ev) (s : AppState) (c : CacheState)
    (h99 : s.step = some 99) (hev1 : ev ≠ Ev.clickStart) (hev2 : ev ≠ Ev.clickReset) :
    (scriptRun caps ev (s, c)).1.step = some 99
    ∧ (scriptRun caps ev (s, c)).1.start_text = s.start_text
    ∧ (scriptRun caps ev (s, c)).1.image_url = s.image_url
    ∧ (scriptRun caps ev (s, c)).1.final_text = s.final_text
    ∧ (scriptRun caps ev (s, c)).2 = c := by
  unfold scriptRun
  rw [initPhase_of_some h99, startPhase_of_ne _ hev1]
  have hstep : (widgetPhase ev s).step = some 99 := by rw [widgetPhase_step]; exact h99
  unfold bodyRun
  split_ifs with hreset hstep1 hbtn2 hstep3 hbtn3 hstep5 <;>
    simp_all [widgetPhase_step, widgetPhase_start_text, widgetPhase_image_url,
      widgetPhase_final_text]

theorem runTrace_frozen (caps : Caps) (tr : List Ev) {w : World}
    (h99 : w.1.step = some 99) (h : InRun tr) :
    (runTrace caps w tr).1.step = some 99
    ∧ (runTrace caps w tr).1.start_text = w.1.start_text
    ∧ (runTrace caps w tr).1.image_url = w.1.image_url
    ∧ (runTrace caps w tr).1.final_text = w.1.final_text
    ∧ (runTrace caps w tr).2 = w.2 := by
  induction tr generalizing w with
  | nil => exact ⟨h99, rfl, rfl, rfl, rfl⟩
  | cons e es ih =>
    obtain ⟨s, c⟩ := w
    obtain ⟨he, hes⟩ := List.forall_mem_cons.mp h
    obtain ⟨f1, f2, f3, f4, f5⟩ := scriptRun_frozen caps e s c h99 he.1 he.2
    obtain ⟨g1, g2, g3, g4, g5⟩ := ih (w := scriptRun caps e (s, c)) f1 hes
    refine ⟨?_, ?_, ?_, ?_, ?_⟩ <;> simp only [runTrace]
    · exact g1
    · rw [g2, f2]
    · rw [g3, f3]
    · rw [g4, f4]
    · rw [g5, f5]

/-- The stage-3 capability counter moves only when the stored step is 5. -/
theorem nVision_change (caps : Caps) (ev : Ev) (s : AppState) (c : CacheState)
    (h : (scriptRun caps ev (s, c)).2.nVision ≠ c.nVision) :
    s.step = some 5 ∧ ev ≠ Ev.clickStart := by
  unfold scriptRun at h
  have hps := phases_step ev s
  set t := startPhase ev (widgetPhase ev (initPhase s)) with ht
  unfold bodyRun at h
  split_ifs at h with hreset hstep1 hbtn2 hstep3 hbtn3 hstep5
  · simp at h
  · exact absurd (cached_start_text_frame caps t.user_topic t.start_role c).2.2.2 h
  · simp at h
  · dsimp only at h
    split_ifs at h <;>
      exact absurd (cached_image_frame caps t.start_text c).2.2.2 h
  · simp at h
  · rw [hstep5] at hps
    split_ifs at hps with hc1 hc2 <;> simp_all
  · simp at h

/-- The stage-2 capability counter moves only when the stored step is 3. -/
theorem nImage_change (caps : Caps) (ev : Ev) (s : AppState) (c : CacheState)
    (h : (scriptRun caps ev (s, c)).2.nImage ≠ c.nImage) :
    s.step = some 3 ∧ ev ≠ Ev.clickStart := by
  unfold scriptRun at h
  have hps := phases_step ev s
  set t := startPhase ev (widgetPhase ev (initPhase s)) with ht
  unfold bodyRun at h
  split_ifs at h with hreset hstep1 hbtn2 hstep3 hbtn3 hstep5
  · simp at h
  · exact absurd (cached_start_text_frame caps t.user_topic t.start_role c).2.2.1 h
  · simp at h
  · rw [hstep3] at hps
    split_ifs at hps with hc1 hc2 <;> simp_all
  · simp at h
  · exact absurd (cached_vision_frame caps t.image_url c).2.2.2 h
  · simp at h



/-- The sentinel built by an `except` clause is never the empty string. -/
theorem sentinel_ne_empty (p e : String) (hp : p ≠ "") : p ++ e ≠ "" := by
  intro h
  apply hp
  have hd := congrArg String.data h
  rw [String.data_append] at hd
  rcases List.append_eq_nil.mp hd with ⟨h1, _⟩
  cases p
  cases h1
  rfl

/-- The stage-2 error sentinel always carries the prefix the gate tests. -/
theorem sentinel_image_marker (e : String) :
    startswith ("이미지 생성 오류: " ++ e) "이미지 생성 오류" = true := by
  unfold startswith
  rw [ List.isPrefixOf_iff_prefix, String.data_append]
  exact List.IsPrefix.trans (by decide) ( List.prefix_append _ _)

/-- Between two runs without start/reset, the step counter never moves
backwards: it stays, is initialized to 0, advances by one, or jumps from 3 to
the failure state 99. -/
theorem step_forward (caps : Caps) (ev : Ev) (w : World)
    (hev1 : ev ≠ Ev.clickStart) (hev2 : ev ≠ Ev.clickReset) :
    (scriptRun caps ev w).1.step = w.1.step
    ∨ (w.1.step = none ∧ (scriptRun caps ev w).1.step = some 0)
    ∨ (∃ k, w.1.step = some k ∧ (scriptRun caps ev w).1.step = some (k + 1))
    ∨ (w.1.step = some 3 ∧ (scriptRun caps ev w).1.step = some 99) := by
  obtain ⟨s, c⟩ := w
  unfold scriptRun
  have hps := phases_step ev s
  rw [if_neg hev1] at hps
  set t := startPhase ev (widgetPhase ev (initPhase s)) with ht
  by_cases hn : s.step = none
  · rw [if_pos hn] at hps
    unfold bodyRun
    split_ifs with hreset hstep1 hbtn2 hstep3 hbtn3 hstep5
    · exact absurd hreset.1 hev2
    · rw [hstep1] at hps; exact absurd hps (by simp)
    · rw [hbtn2.2.2] at hps; exact absurd hps (by simp)
    · rw [hstep3] at hps; exact absurd hps (by simp)
    · rw [hbtn3.2.2.2] at hps; exact absurd hps (by simp)
    · rw [hstep5] at hps; exact absurd hps (by simp)
    · right; left; exact ⟨hn, hps⟩
  · rw [if_neg hn] at hps
    unfold bodyRun
    split_ifs with hreset hstep1 hbtn2 hstep3 hbtn3 hstep5
    · exact absurd hreset.1 hev2
    · right; right; left
      exact ⟨1, by rw [← hps, hstep1], by simp⟩
    · right; right; left
      exact ⟨2, by rw [← hps, hbtn2.2.2], by simp⟩
    · dsimp only
      split
      · right; right; left
        exact ⟨3, by rw [← hps, hstep3], by simp⟩
      · right; right; right
        exact ⟨by rw [← hps, hstep3], by simp⟩
    · right; right; left
      exact ⟨4, by rw [← hps, hbtn3.2.2.2], by simp⟩
    · right; right; left
      exact ⟨5, by rw [← hps, hstep5], by simp⟩
    · left; exact hps


/-- C1: for each stage, re-invoking the memoized transform with the same
serialized input returns the identical cached artifact and leaves the cache
state unchanged, and the underlying capability has been invoked exactly once
(the counter rises by one on the first, miss, call and not on the second);
each stage owns a disjoint table, so the memoization key is value equality on
(stage, serialized input): a stage-1 call cannot touch the stage-2 or stage-3
tables or counters. -/
theorem C1_advance_memoized_idempotent (caps : Caps) (c : CacheState)
    (topic role : String) (prompt iurl : Option String)
    (ht : c.textCache.lookup (topic, role) = none)
    (hi : c.imageCache.lookup prompt = none)
    (hv : c.visionCache.lookup iurl = none) :
    ((cached_start_text caps topic role (cached_start_text caps topic role c).2).1
        = (cached_start_text caps topic role c).1
      ∧ (cached_start_text caps topic role (cached_start_text caps topic role c).2).2
        = (cached_start_text caps topic role c).2
      ∧ (cached_start_text caps topic role c).2.nText = c.nText + 1
      ∧ (cached_start_text caps topic role c).2.nImage = c.nImage
      ∧ (cached_start_text caps topic role c).2.nVision = c.nVision
      ∧ (cached_start_text caps topic role c).2.imageCache = c.imageCache
      ∧ (cached_start_text caps topic role c).2.visionCache = c.visionCache)
    ∧ ((cached_image caps prompt (cached_image caps prompt c).2).1
        = (cached_image caps prompt c).1
      ∧ (cached_image caps prompt (cached_image caps prompt c).2).2
        = (cached_image caps prompt c).2
      ∧ (cached_image caps prompt c).2.nImage = c.nImage + 1
      ∧ (cached_image caps prompt c).2.nText = c.nText
      ∧ (cached_image caps prompt c).2.nVision = c.nVision)
    ∧ ((cached_vision caps iurl (cached_vision caps iurl c).2).1
        = (cached_vision caps iurl c).1
      ∧ (cached_vision caps iurl (cached_vision caps iurl c).2).2
        = (cached_vision caps iurl c).2
      ∧ (cached_vision caps iurl c).2.nVision = c.nVision + 1
      ∧ (cached_vision caps iurl c).2.nText = c.nText
      ∧ (cached_vision caps iurl c).2.nImage = c.nImage) := by
  refine ⟨⟨?_, ?_, ?_, ?_, ?_, ?_, ?_⟩, ⟨?_, ?_, ?_, ?_, ?_⟩, ⟨?_, ?_, ?_, ?_, ?_⟩⟩ <;>
    simp [cached_start_text, cached_image, cached_vision, ht, hi, hv, List.lookup]

/-- Closed instantiation of the C1 theorem with the stub capability set and
an empty cache. -/
theorem C1_advance_memoized_idempotent_witness :
    (cached_start_text stubCaps "미래 도시의 고독" "AI 시인"
        (cached_start_text stubCaps "미래 도시의 고독" "AI 시인" CacheState.empty).2).1
      = (cached_start_text stubCaps "미래 도시의 고독" "AI 시인" CacheState.empty).1
    ∧ (cached_start_text stubCaps "미래 도시의 고독" "AI 시인" CacheState.empty).2.nText
      = CacheState.empty.nText + 1
    ∧ (cached_image stubCaps (some "시") (cached_image stubCaps (some "시")
        CacheState.empty).2).1
      = (cached_image stubCaps (some "시") CacheState.empty).1 :=
  ⟨(C1_advance_memoized_idempotent stubCaps CacheState.empty "미래 도시의 고독" "AI 시인"
      (some "시") (some "http-img") rfl rfl rfl).1.1,
   (C1_advance_memoized_idempotent stubCaps CacheState.empty "미래 도시의 고독" "AI 시인"
      (some "시") (some "http-img") rfl rfl rfl).1.2.2.1,
   (C1_advance_memoized_idempotent stubCaps CacheState.empty "미래 도시의 고독" "AI 시인"
      (some "시") (some "http-img") rfl rfl rfl).2.1.1⟩


/-- C2 counterexample: stage-1 errors are swallowed into a sentinel string
that counts as a stored result, so after a failing stage-1 call the stage-2
transform is still invoked (`nImage = 1`) even though stage 1 never produced
a Success: its stored artifact is the stage-1 error sentinel itself. -/
theorem C2_counterexample_stage2_after_failure :
    (runTrace failingTextCaps world0 [Ev.clickStart, Ev.clickStep2, Ev.rerun]).2.nImage = 1
    ∧ (runTrace failingTextCaps world0
        [Ev.clickStart, Ev.clickStep2, Ev.rerun]).1.start_text
        = some ("텍스트 생성 오류: " ++ "boom")
    ∧ startswith ("텍스트 생성 오류: " ++ "boom") "텍스트 생성 오류" = true := by
  refine ⟨?_, ?_, ?_⟩ <;> decide

/-- C2 amended: the stage-3 transform is invoked only from step 5, which
is reachable only when stage 2's stored result is a Success (truthy, without
the error sentinel); the stage-2 transform is invoked only from step 3, where
stage 1 has a truthy stored result — which may itself be a stage-1 error
sentinel, since stage-1 failures are not detected; and a detected Failure at
stage 2 (step 99) freezes the run: without start/reset the step stays 99 and
the cache (hence every capability counter) never moves. -/
theorem C2_amended_stage_order (caps : Caps) (tr : List Ev) (ev : Ev) (tr2 : List Ev) :
    ((scriptRun caps ev (runTrace caps world0 tr)).2.nVision
        ≠ (runTrace caps world0 tr).2.nVision →
      (runTrace caps world0 tr).1.step = some 5
      ∧ truthy (runTrace caps world0 tr).1.image_url = true
      ∧ startswith ((runTrace caps world0 tr).1.image_url.getD "") "이미지 생성 오류" = false)
    ∧ ((scriptRun caps ev (runTrace caps world0 tr)).2.nImage
        ≠ (runTrace caps world0 tr).2.nImage →
      (runTrace caps world0 tr).1.step = some 3
      ∧ truthy (runTrace caps world0 tr).1.start_text = true)
    ∧ ((runTrace caps world0 tr).1.step = some 99 → InRun tr2 →
      (runTrace caps (runTrace caps world0 tr) tr2).1.step = some 99
      ∧ (runTrace caps (runTrace caps world0 tr) tr2).2
          = (runTrace caps world0 tr).2) := by
  obtain ⟨hInv1, hInv2, hInv3⟩ := Inv_runTrace caps tr (w := world0) Inv_world0
  refine ⟨?_, ?_, ?_⟩
  · intro h
    have h5 := nVision_change caps ev (runTrace caps world0 tr).1
      (runTrace caps world0 tr).2 h
    obtain ⟨hi1, hi2⟩ := hInv2 (Or.inr h5.1)
    exact ⟨h5.1, hi1, hi2⟩
  · intro h
    have h3 := nImage_change caps ev (runTrace caps world0 tr).1
      (runTrace caps world0 tr).2 h
    exact ⟨h3.1, hInv1 (Or.inl h3.1)⟩
  · intro h99 htr2
    obtain ⟨g1, _, _, _, g5⟩ := runTrace_frozen caps tr2
      (w := runTrace caps world0 tr) h99 htr2
    exact ⟨g1, g5⟩

/-- Closed instantiation of the amended C2 theorem: the vision call fires
from step 5 of a clean run, and a stage-2 failure freezes step 99 across
further in-run events. -/
theorem C2_amended_stage_order_witness :
    ((runTrace stubCaps world0
        [Ev.clickStart, Ev.clickStep2, Ev.rerun, Ev.clickStep3]).1.step = some 5
      ∧ truthy (runTrace stubCaps world0
          [Ev.clickStart, Ev.clickStep2, Ev.rerun, Ev.clickStep3]).1.image_url = true
      ∧ startswith ((runTrace stubCaps world0
          [Ev.clickStart, Ev.clickStep2, Ev.rerun, Ev.clickStep3]).1.image_url.getD "")
          "이미지 생성 오류" = false)
    ∧ ((runTrace stubCaps world0 [Ev.clickStart, Ev.clickStep2]).1.step = some 3
      ∧ truthy (runTrace stubCaps world0 [Ev.clickStart, Ev.clickStep2]).1.start_text = true)
    ∧ ((runTrace failingImageCaps
          (runTrace failingImageCaps world0 [Ev.clickStart, Ev.clickStep2, Ev.rerun])
          [Ev.rerun, Ev.clickStep3]).1.step = some 99
      ∧ (runTrace failingImageCaps
          (runTrace failingImageCaps world0 [Ev.clickStart, Ev.clickStep2, Ev.rerun])
          [Ev.rerun, Ev.clickStep3]).2
          = (runTrace failingImageCaps world0 [Ev.clickStart, Ev.clickStep2, Ev.rerun]).2) :=
  ⟨(C2_amended_stage_order stubCaps [Ev.clickStart, Ev.clickStep2, Ev.rerun, Ev.clickStep3]
      Ev.rerun []).1 (by decide),
   (C2_amended_stage_order stubCaps [Ev.clickStart, Ev.clickStep2] Ev.rerun []).2.1
      (by decide),
   (C2_amended_stage_order failingImageCaps [Ev.clickStart, Ev.clickStep2, Ev.rerun]
      Ev.rerun [Ev.rerun, Ev.clickStep3]).2.2 (by decide) (by simp [InRun])⟩


/-- C3: from step 3 (stage 2 about to run) with a cache miss, if the
image capability returns an error, the very next run puts the run in the
Failed state (step 99); for the rest of the run (no start/reset) the step
stays 99, the stage-1 artifact keeps its prior value, stage 3 stays Pending
(`final_text = none`) and the stage-3 capability is never invoked
(`nVision` never moves). -/
theorem C3_stage2_error_freezes (caps : Caps) (s : AppState) (c : CacheState)
    (t e : String) (tr : List Ev)
    (hstep : s.step = some 3)
    (hst : s.start_text = some t)
    (hfin : s.final_text = none)
    (hmiss : c.imageCache.lookup (some t) = none)
    (herr : caps.imageGen (some t) = .error e)
    (htr : InRun tr) (hne : tr ≠ []) :
    (runTrace caps (s, c) tr).1.step = some 99
    ∧ (runTrace caps (s, c) tr).1.start_text = some t
    ∧ (runTrace caps (s, c) tr).1.final_text = none
    ∧ (runTrace caps (s, c) tr).2.nVision = c.nVision := by
  cases tr with
  | nil => exact absurd rfl hne
  | cons ev rest =>
    obtain ⟨hev, hrest⟩ := List.forall_mem_cons.mp htr
    -- the first event executes the step-3 branch and fails into step 99
    have hw : (scriptRun caps ev (s, c)).1.step = some 99
        ∧ (scriptRun caps ev (s, c)).1.start_text = some t
        ∧ (scriptRun caps ev (s, c)).1.final_text = none
        ∧ (scriptRun caps ev (s, c)).2.nVision = c.nVision := by
      unfold scriptRun
      rw [initPhase_of_some hstep, startPhase_of_ne _ hev.1]
      have hstep' : (widgetPhase ev s).step = some 3 := by
        rw [widgetPhase_step]; exact hstep
      have hst' : (widgetPhase ev s).start_text = some t := by
        rw [widgetPhase_start_text]; exact hst
      have hfin' : (widgetPhase ev s).final_text = none := by
        rw [widgetPhase_final_text]; exact hfin
      unfold bodyRun
      rw [if_neg (by simp [hev.2]), if_neg (by simp [hstep']),
        if_neg (by simp [hstep']), if_pos hstep']
      dsimp only
      rw [hst']
      have hv : cached_image caps (some t) c
          = ("이미지 생성 오류: " ++ e,
             { c with imageCache := (some t, "이미지 생성 오류: " ++ e) :: c.imageCache,
                      nImage := c.nImage + 1 }) := by
        simp [cached_image, hmiss, generate_image_from_text, herr]
      rw [hv]
      rw [if_neg (by simp [sentinel_image_marker])]
      exact ⟨rfl, rfl, hfin', rfl⟩
    obtain ⟨f1, f2, f3, f4⟩ := hw
    obtain ⟨g1, g2, g3, g4, g5⟩ := runTrace_frozen caps rest
      (w := scriptRun caps ev (s, c)) f1 hrest
    refine ⟨?_, ?_, ?_, ?_⟩ <;> simp only [runTrace]
    · exact g1
    · rw [g2, f2]
    · rw [g4, f3]
    · rw [g5]
      exact f4


/-- Closed instantiation of the C3 theorem: a failing image capability at
step 3 freezes the run at step 99 across two further in-run events. -/
theorem C3_stage2_error_freezes_witness :
    (runTrace failingImageCaps (step3State, CacheState.empty)
        [Ev.rerun, Ev.clickStep3]).1.step = some 99
    ∧ (runTrace failingImageCaps (step3State, CacheState.empty)
        [Ev.rerun, Ev.clickStep3]).1.start_text = some "시"
    ∧ (runTrace failingImageCaps (step3State, CacheState.empty)
        [Ev.rerun, Ev.clickStep3]).1.final_text = none
    ∧ (runTrace failingImageCaps (step3State, CacheState.empty)
        [Ev.rerun, Ev.clickStep3]).2.nVision = CacheState.empty.nVision :=
  C3_stage2_error_freezes failingImageCaps step3State CacheState.empty "시" "img down"
    [Ev.rerun, Ev.clickStep3] rfl rfl rfl rfl rfl (by simp [InRun]) (by simp)


theorem runTrace_append (caps : Caps) (w : World) (l1 l2 : List Ev) :
    runTrace caps w (l1 ++ l2) = runTrace caps (runTrace caps w l1) l2 := by
  induction l1 generalizing w with
  | nil => rfl
  | cons e es ih => simp [runTrace, ih]

/-- C4: for any topic and role, starting the workflow and clicking the
two stage buttons, with all three capabilities succeeding on non-empty,
non-sentinel outputs, passes through the snapshots of stages 1, 2 and 3 in
order — each capability invoked exactly once, each artifact stored — and ends
at step 6 (Complete) with the three non-empty artifacts; moreover, between
runs without start/reset the step counter only stays, initializes, advances
by one, or falls from 3 into the failure state, so stages are never skipped
or revisited except through start/reset. -/
theorem C4_happy_path_strictly_forward (caps : Caps) (T R t1 u t3 : String)
    (h1 : caps.textGen T R = .ok t1) (h1ne : t1 ≠ "")
    (h2 : caps.imageGen (some t1) = .ok u) (h2ne : u ≠ "")
    (h2pre : startswith u "이미지 생성 오류" = false)
    (h3 : caps.vision (some u) = .ok t3) (h3ne : t3 ≠ "") :
    (runTrace caps world0 [Ev.setTopic T, Ev.setRole R, Ev.clickStart]
      = ({ step := some 2, start_text := some t1, image_url := none, final_text := none,
           user_topic := T, start_role := R, topic_input := some T, role_select := some R },
         { textCache := [((T, R), t1)], imageCache := [], visionCache := [],
           nText := 1, nImage := 0, nVision := 0 }))
    ∧ (runTrace caps world0 [Ev.setTopic T, Ev.setRole R, Ev.clickStart,
          Ev.clickStep2, Ev.rerun]
      = ({ step := some 4, start_text := some t1, image_url := some u, final_text := none,
           user_topic := T, start_role := R, topic_input := some T, role_select := some R },
         { textCache := [((T, R), t1)], imageCache := [(some t1, u)], visionCache := [],
           nText := 1, nImage := 1, nVision := 0 }))
    ∧ (runTrace caps world0 [Ev.setTopic T, Ev.setRole R, Ev.clickStart,
          Ev.clickStep2, Ev.rerun, Ev.clickStep3, Ev.rerun]
      = ({ step := some 6, start_text := some t1, image_url := some u,
           final_text := some t3,
           user_topic := T, start_role := R, topic_input := some T, role_select := some R },
         { textCache := [((T, R), t1)], imageCache := [(some t1, u)],
           visionCache := [(some u, t3)], nText := 1, nImage := 1, nVision := 1 }))
    ∧ (t1 ≠ "" ∧ u ≠ "" ∧ t3 ≠ "")
    ∧ (∀ (w : World) (ev : Ev), ev ≠ Ev.clickStart → ev ≠ Ev.clickReset →
        (scriptRun caps ev w).1.step = w.1.step
        ∨ (w.1.step = none ∧ (scriptRun caps ev w).1.step = some 0)
        ∨ (∃ k, w.1.step = some k ∧ (scriptRun caps ev w).1.step = some (k + 1))
        ∨ (w.1.step = some 3 ∧ (scriptRun caps ev w).1.step = some 99)) := by
  have e1 : runTrace caps world0 [Ev.setTopic T, Ev.setRole R, Ev.clickStart]
      = ({ step := some 2, start_text := some t1, image_url := none, final_text := none,
           user_topic := T, start_role := R, topic_input := some T, role_select := some R },
         { textCache := [((T, R), t1)], imageCache := [], visionCache := [],
           nText := 1, nImage := 0, nVision := 0 }) := by
    simp [runTrace, scriptRun, world0, initState, initPhase, widgetPhase, startPhase,
      bodyRun, cached_start_text, generate_start_text, truthy, h1, List.lookup,
      CacheState.empty]
  have e2 : runTrace caps world0 [Ev.setTopic T, Ev.setRole R, Ev.clickStart,
        Ev.clickStep2, Ev.rerun]
      = ({ step := some 4, start_text := some t1, image_url := some u, final_text := none,
           user_topic := T, start_role := R, topic_input := some T, role_select := some R },
         { textCache := [((T, R), t1)], imageCache := [(some t1, u)], visionCache := [],
           nText := 1, nImage := 1, nVision := 0 }) := by
    rw [show [Ev.setTopic T, Ev.setRole R, Ev.clickStart, Ev.clickStep2, Ev.rerun]
        = [Ev.setTopic T, Ev.setRole R, Ev.clickStart] ++ [Ev.clickStep2, Ev.rerun]
      from rfl, runTrace_append, e1]
    simp [runTrace, scriptRun, initPhase, widgetPhase, startPhase, bodyRun,
      cached_image, generate_image_from_text, truthy, h2, h1ne, h2ne, h2pre,
      List.lookup]
  have e3 : runTrace caps world0 [Ev.setTopic T, Ev.setRole R, Ev.clickStart,
        Ev.clickStep2, Ev.rerun, Ev.clickStep3, Ev.rerun]
      = ({ step := some 6, start_text := some t1, image_url := some u,
           final_text := some t3,
           user_topic := T, start_role := R, topic_input := some T, role_select := some R },
         { textCache := [((T, R), t1)], imageCache := [(some t1, u)],
           visionCache := [(some u, t3)], nText := 1, nImage := 1, nVision := 1 }) := by
    rw [show [Ev.setTopic T, Ev.setRole R, Ev.clickStart, Ev.clickStep2, Ev.rerun,
          Ev.clickStep3, Ev.rerun]
        = [Ev.setTopic T, Ev.setRole R, Ev.clickStart, Ev.clickStep2, Ev.rerun]
          ++ [Ev.clickStep3, Ev.rerun]
      from rfl, runTrace_append, e2]
    simp [runTrace, scriptRun, initPhase, widgetPhase, startPhase, bodyRun,
      cached_vision, analyze_image_to_text, truthy, h3, h1ne, h2ne, h2pre, h3ne,
      List.lookup]
  exact ⟨e1, e2, e3, ⟨h1ne, h2ne, h3ne⟩,
    fun w ev hev1 hev2 => step_forward caps ev w hev1 hev2⟩

/-- Closed instantiation of the C4 theorem with the stub capability set:
the full run ends at step 6 with all three artifacts, and one forward-step
instance at the fresh session. -/
theorem C4_happy_path_strictly_forward_witness :
    (runTrace stubCaps world0 [Ev.setTopic "미래 도시의 고독", Ev.setRole "AI 시인",
        Ev.clickStart, Ev.clickStep2, Ev.rerun, Ev.clickStep3, Ev.rerun]
      = ({ step := some 6, start_text := some "시", image_url := some "http-img",
           final_text := some "묘사", user_topic := "미래 도시의 고독",
           start_role := "AI 시인", topic_input := some "미래 도시의 고독",
           role_select := some "AI 시인" },
         { textCache := [(("미래 도시의 고독", "AI 시인"), "시")],
           imageCache := [(some "시", "http-img")], visionCache := [(some "http-img", "묘사")],
           nText := 1, nImage := 1, nVision := 1 }))
    ∧ ((scriptRun stubCaps Ev.rerun world0).1.step = world0.1.step
        ∨ (world0.1.step = none ∧ (scriptRun stubCaps Ev.rerun world0).1.step = some 0)
        ∨ (∃ k, world0.1.step = some k
            ∧ (scriptRun stubCaps Ev.rerun world0).1.step = some (k + 1))
        ∨ (world0.1.step = some 3
            ∧ (scriptRun stubCaps Ev.rerun world0).1.step = some 99)) :=
  ⟨(C4_happy_path_strictly_forward stubCaps "미래 도시의 고독" "AI 시인" "시" "http-img"
      "묘사" rfl (by decide) rfl (by decide) (by decide) rfl (by decide)).2.2.1,
   (C4_happy_path_strictly_forward stubCaps "미래 도시의 고독" "AI 시인" "시" "http-img"
      "묘사" rfl (by decide) rfl (by decide) (by decide) rfl (by decide)).2.2.2.2
      world0 Ev.rerun (by decide) (by decide)⟩


/-- C5 counterexample: the sidebar reset deletes only `st.session_state`
keys; the `st.cache_data` tables survive it.  After start → reset → start
with the same (default) topic, the text capability has been invoked exactly
once — the second run is served from the cache — where the claim requires it
to be re-invoked (twice in total). -/
theorem C5_counterexample_cache_survives_reset :
    (runTrace stubCaps world0
        [Ev.clickStart, Ev.clickReset, Ev.rerun, Ev.clickStart]).2.nText = 1
    ∧ (runTrace stubCaps world0
        [Ev.clickStart, Ev.clickReset, Ev.rerun, Ev.clickStart]).1.start_text = some "시"
    ∧ ¬ (runTrace stubCaps world0
        [Ev.clickStart, Ev.clickReset, Ev.rerun, Ev.clickStart]).2.nText = 2 := by
  refine ⟨?_, ?_, ?_⟩ <;> decide

/-- C5 amended: the reset button destroys every StageResult and returns
the session to the initial state (step 0), but the memoization tables and
call counters survive; a subsequent start with the same topic returns the
cached stage-1 artifact without re-invoking the text capability. -/
theorem C5_amended_reset_clears_results_not_cache (caps : Caps) (t1 : String)
    (h1 : caps.textGen "미래 도시의 고독" "AI 시인" = .ok t1) :
    (runTrace caps world0 [Ev.clickStart, Ev.clickReset, Ev.rerun]).1.step = some 0
    ∧ (runTrace caps world0 [Ev.clickStart, Ev.clickReset, Ev.rerun]).1.start_text = none
    ∧ (runTrace caps world0 [Ev.clickStart, Ev.clickReset, Ev.rerun]).1.image_url = none
    ∧ (runTrace caps world0 [Ev.clickStart, Ev.clickReset, Ev.rerun]).1.final_text = none
    ∧ (runTrace caps world0 [Ev.clickStart, Ev.clickReset, Ev.rerun]).2.textCache
        = [(("미래 도시의 고독", "AI 시인"), t1)]
    ∧ (runTrace caps world0 [Ev.clickStart, Ev.clickReset, Ev.rerun]).2.nText = 1
    ∧ (runTrace caps world0
        [Ev.clickStart, Ev.clickReset, Ev.rerun, Ev.clickStart]).1.start_text = some t1
    ∧ (runTrace caps world0
        [Ev.clickStart, Ev.clickReset, Ev.rerun, Ev.clickStart]).2.nText = 1 := by
  have f1 : runTrace caps world0 [Ev.clickStart, Ev.clickReset, Ev.rerun]
      = ({ step := some 0, start_text := none, image_url := none, final_text := none,
           user_topic := "미래 도시의 고독", start_role := "AI 시인",
           topic_input := some "미래 도시의 고독", role_select := some "AI 시인" },
         { textCache := [(("미래 도시의 고독", "AI 시인"), t1)], imageCache := [],
           visionCache := [], nText := 1, nImage := 0, nVision := 0 }) := by
    simp [runTrace, scriptRun, world0, initState, initPhase, widgetPhase, startPhase,
      bodyRun, cached_start_text, generate_start_text, truthy, h1, List.lookup,
      CacheState.empty]
  have f2 : runTrace caps world0 [Ev.clickStart, Ev.clickReset, Ev.rerun, Ev.clickStart]
      = ({ step := some 2, start_text := some t1, image_url := none, final_text := none,
           user_topic := "미래 도시의 고독", start_role := "AI 시인",
           topic_input := some "미래 도시의 고독", role_select := some "AI 시인" },
         { textCache := [(("미래 도시의 고독", "AI 시인"), t1)], imageCache := [],
           visionCache := [], nText := 1, nImage := 0, nVision := 0 }) := by
    rw [show [Ev.clickStart, Ev.clickReset, Ev.rerun, Ev.clickStart]
        = [Ev.clickStart, Ev.clickReset, Ev.rerun] ++ [Ev.clickStart] from rfl,
      runTrace_append, f1]
    simp [runTrace, scriptRun, initPhase, widgetPhase, startPhase, bodyRun,
      cached_start_text, truthy, List.lookup]
  rw [f1, f2]
  exact ⟨rfl, rfl, rfl, rfl, rfl, rfl, rfl, rfl⟩

/-- Closed instantiation of the amended C5 theorem with the stub capability
set. -/
theorem C5_amended_reset_clears_results_not_cache_witness :
    (runTrace stubCaps world0 [Ev.clickStart, Ev.clickReset, Ev.rerun]).1.step = some 0
    ∧ (runTrace stubCaps world0 [Ev.clickStart, Ev.clickReset, Ev.rerun]).1.start_text = none
    ∧ (runTrace stubCaps world0 [Ev.clickStart, Ev.clickReset, Ev.rerun]).1.image_url = none
    ∧ (runTrace stubCaps world0 [Ev.clickStart, Ev.clickReset, Ev.rerun]).1.final_text = none
    ∧ (runTrace stubCaps world0 [Ev.clickStart, Ev.clickReset, Ev.rerun]).2.textCache
        = [(("미래 도시의 고독", "AI 시인"), "시")]
    ∧ (runTrace stubCaps world0 [Ev.clickStart, Ev.clickReset, Ev.rerun]).2.nText = 1
    ∧ (runTrace stubCaps world0
        [Ev.clickStart, Ev.clickReset, Ev.rerun, Ev.clickStart]).1.start_text = some "시"
    ∧ (runTrace stubCaps world0
        [Ev.clickStart, Ev.clickReset, Ev.rerun, Ev.clickStart]).2.nText = 1 :=
  C5_amended_reset_clears_results_not_cache stubCaps "시" rfl

/-- C6, evidence for the code bug: the reset loop keeps the
`user_topic` / `start_role` keys — the source comment says the inputs are
preserved — and the claim says reset retains the Topic and role.  But
deleting `step` re-runs the initialization block and deleting the widget
keys reverts both widgets to their declared defaults, so a typed topic
("바다") and a selected role ("AI 철학자") are replaced by the defaults after
reset, while the StageResults are indeed destroyed and the run returns to
step 0. -/
theorem C6_reset_loses_topic_and_role :
    (runTrace stubCaps world0
        [Ev.setTopic "바다", Ev.setRole "AI 철학자", Ev.clickStart]).1.user_topic = "바다"
    ∧ (runTrace stubCaps world0
        [Ev.setTopic "바다", Ev.setRole "AI 철학자", Ev.clickStart]).1.start_role = "AI 철학자"
    ∧ (runTrace stubCaps world0 [Ev.setTopic "바다", Ev.setRole "AI 철학자", Ev.clickStart,
        Ev.clickReset, Ev.rerun]).1.user_topic = "미래 도시의 고독"
    ∧ (runTrace stubCaps world0 [Ev.setTopic "바다", Ev.setRole "AI 철학자", Ev.clickStart,
        Ev.clickReset, Ev.rerun]).1.start_role = "AI 시인"
    ∧ (runTrace stubCaps world0 [Ev.setTopic "바다", Ev.setRole "AI 철학자", Ev.clickStart,
        Ev.clickReset, Ev.rerun]).1.step = some 0
    ∧ (runTrace stubCaps world0 [Ev.setTopic "바다", Ev.setRole "AI 철학자", Ev.clickStart,
        Ev.clickReset, Ev.rerun]).1.start_text = none := by
  refine ⟨?_, ?_, ?_, ?_, ?_, ?_⟩ <;> decide

/-- C8: in every reachable session state in which the stage-4 panel
renders (`final_text` truthy), both texts exist, and the comparative
character-length metric — the pair of lengths whose difference is the
length delta — is defined: the `len(None)` crash branch is unreachable, so
the computation always succeeds.  `stage4_metrics` takes only the session
state, so the computation involves no capability call. -/
theorem C8_stage4_metric_total (caps : Caps) (tr : List Ev)
    (h : truthy (runTrace caps world0 tr).1.final_text = true) :
    ∃ a b, (runTrace caps world0 tr).1.start_text = some a
      ∧ (runTrace caps world0 tr).1.final_text = some b
      ∧ stage4_metrics (runTrace caps world0 tr).1 = some (a.length, b.length) := by
  obtain ⟨hInv1, hInv2, hInv3⟩ := Inv_runTrace caps tr (w := world0) Inv_world0
  obtain ⟨a, ha⟩ := hInv3 h
  obtain ⟨b, hb⟩ := truthy_isSome h
  have hcond : truthy (some b) = true := hb ▸ h
  exact ⟨a, b, ha, hb, by simp [stage4_metrics, ha, hb, hcond]⟩

/-- Closed instantiation of the C8 theorem at the end of a complete run. -/
theorem C8_stage4_metric_total_witness :
    ∃ a b, (runTrace stubCaps world0 [Ev.clickStart, Ev.clickStep2, Ev.rerun,
        Ev.clickStep3, Ev.rerun]).1.start_text = some a
      ∧ (runTrace stubCaps world0 [Ev.clickStart, Ev.clickStep2, Ev.rerun,
          Ev.clickStep3, Ev.rerun]).1.final_text = some b
      ∧ stage4_metrics (runTrace stubCaps world0 [Ev.clickStart, Ev.clickStep2, Ev.rerun,
          Ev.clickStep3, Ev.rerun]).1 = some (a.length, b.length) :=
  C8_stage4_metric_total stubCaps
    [Ev.clickStart, Ev.clickStep2, Ev.rerun, Ev.clickStep3, Ev.rerun] (by decide)

end TransformChain

namespace MetDashboard

theorem list_sum_map_div (l : List ℚ) (b : ℚ) :
    (l.map (fun x => x / b)).sum = l.sum / b := by
  induction l with
  | nil => simp
  | cons x xs ih => simp [ih, add_div]

theorem rows_color (t ar : String) (id : Nat) (l : List (String × ℚ)) :
    (l.map (fun p => PaletteRow.mk ar t p.1 p.2 id)).map PaletteRow.Color_HEX
      = l.map Prod.fst := by
  induction l <;> simp_all

theorem rows_freq (t ar : String) (id : Nat) (l : List (String × ℚ)) :
    (l.map (fun p => PaletteRow.mk ar t p.1 p.2 id)).map PaletteRow.Frequency
      = l.map Prod.snd := by
  induction l <;> simp_all

theorem rows_artist (t ar : String) (id : Nat) (l : List (String × ℚ)) :
    (l.map (fun p => PaletteRow.mk ar t p.1 p.2 id)).map PaletteRow.Artist
      = List.replicate l.length ar := by
  induction l <;> simp_all [List.replicate]

theorem rows_artwork (t ar : String) (id : Nat) (l : List (String × ℚ)) :
    (l.map (fun p => PaletteRow.mk ar t p.1 p.2 id)).map PaletteRow.Artwork
      = List.replicate l.length t := by
  induction l <;> simp_all [List.replicate]

theorem rows_id (t ar : String) (id : Nat) (l : List (String × ℚ)) :
    (l.map (fun p => PaletteRow.mk ar t p.1 p.2 id)).map PaletteRow.Artwork_ID
      = List.replicate l.length id := by
  induction l <;> simp_all [List.replicate]

/-- C7: the palette fabrication is driven by a generator seeded with
`object_id % 100`, selects five colors, and normalizes the five random
frequencies by their sum. -/
theorem C7_palette (σ : Type) (R : NpRandom σ) (object_id : Nat) (title artist : String) :
    (simulate_palette_data R object_id title artist).length = 5
    ∧ (simulate_palette_data R object_id title artist).map PaletteRow.Color_HEX
        = (simulate_palette_data R (object_id % 100) title artist).map PaletteRow.Color_HEX
    ∧ (simulate_palette_data R object_id title artist).map PaletteRow.Frequency
        = (simulate_palette_data R (object_id % 100) title artist).map PaletteRow.Frequency
    ∧ ((R.rand5 (R.choice5 (R.seed (object_id % 100)) hex_options).2).1.sum ≠ 0 →
        ((simulate_palette_data R object_id title artist).map PaletteRow.Frequency).sum = 1) := by
  have hmod : object_id % 100 % 100 = object_id % 100 :=
    Nat.mod_mod_of_dvd object_id (dvd_refl 100)
  have hA : (R.choice5 (R.seed (object_id % 100)) hex_options).1.length = 5 :=
    R.choice5_length _ _
  have hF0 : (R.rand5 (R.choice5 (R.seed (object_id % 100)) hex_options).2).1.length = 5 :=
    R.rand5_length _
  refine ⟨?_, ?_, ?_, ?_⟩
  · simp [simulate_palette_data, List.length_zip, hA, hF0]
  · simp only [simulate_palette_data, hmod]
    rw [rows_color, rows_color]
  · simp only [simulate_palette_data, hmod]
    rw [rows_freq, rows_freq]
  · intro h
    simp only [simulate_palette_data]
    rw [rows_freq, List.map_snd_zip]
    · rw [list_sum_map_div, div_self h]
    · simp [hA, hF0]

/-- C9: the palette depends on the object id only through `id % 100`;
two congruent ids get the same colors and frequencies, and only the
constant label columns carry the id, title and artist. -/
theorem C9_palette_mod100 (σ : Type) (R : NpRandom σ) (id1 id2 : Nat)
    (t1 a1 t2 a2 : String) (h : id1 % 100 = id2 % 100) :
    (simulate_palette_data R id1 t1 a1).map PaletteRow.Color_HEX
      = (simulate_palette_data R id2 t2 a2).map PaletteRow.Color_HEX
    ∧ (simulate_palette_data R id1 t1 a1).map PaletteRow.Frequency
      = (simulate_palette_data R id2 t2 a2).map PaletteRow.Frequency
    ∧ (simulate_palette_data R id1 t1 a1).map PaletteRow.Artist = List.replicate 5 a1
    ∧ (simulate_palette_data R id1 t1 a1).map PaletteRow.Artwork = List.replicate 5 t1
    ∧ (simulate_palette_data R id1 t1 a1).map PaletteRow.Artwork_ID
        = List.replicate 5 id1 := by
  have hz : (((R.choice5 (R.seed (id1 % 100)) hex_options).1).zip
      (((R.rand5 (R.choice5 (R.seed (id1 % 100)) hex_options).2).1).map
        (fun x => x / (R.rand5 (R.choice5 (R.seed (id1 % 100)) hex_options).2).1.sum))).length
        = 5 := by
    simp [List.length_zip, R.choice5_length, R.rand5_length]
  refine ⟨?_, ?_, ?_, ?_, ?_⟩
  · simp only [simulate_palette_data, h]
    rw [rows_color, rows_color]
  · simp only [simulate_palette_data, h]
    rw [rows_freq, rows_freq]
  · simp only [simulate_palette_data]
    rw [rows_artist, hz]
  · simp only [simulate_palette_data]
    rw [rows_artwork, hz]
  · simp only [simulate_palette_data]
    rw [rows_id, hz]

/-- Closed instantiation of the C9 theorem at ids 7 and 107 with the constant
generator. -/
theorem C9_palette_mod100_witness :
    (simulate_palette_data constRandom 7 "Irises" "Gogh").map PaletteRow.Color_HEX
      = (simulate_palette_data constRandom 107 "Sunflowers" "Vincent").map PaletteRow.Color_HEX
    ∧ (simulate_palette_data constRandom 7 "Irises" "Gogh").map PaletteRow.Frequency
      = (simulate_palette_data constRandom 107 "Sunflowers" "Vincent").map PaletteRow.Frequency
    ∧ (simulate_palette_data constRandom 7 "Irises" "Gogh").map PaletteRow.Artist
        = List.replicate 5 "Gogh"
    ∧ (simulate_palette_data constRandom 7 "Irises" "Gogh").map PaletteRow.Artwork
        = List.replicate 5 "Irises"
    ∧ (simulate_palette_data constRandom 7 "Irises" "Gogh").map PaletteRow.Artwork_ID
        = List.replicate 5 7 :=
  C9_palette_mod100 Unit constRandom 7 107 "Irises" "Gogh" "Sunflowers" "Vincent" (by decide)

/-- Closed instantiation of the C7 theorem at id 123 with the constant
generator. -/
theorem C7_palette_witness :
    ((constRandom.rand5 (constRandom.choice5 (constRandom.seed (123 % 100))
        hex_options).2).1.sum ≠ 0)
    ∧ (simulate_palette_data constRandom 123 "Irises" "Gogh").length = 5
    ∧ ((simulate_palette_data constRandom 123 "Irises" "Gogh").map
        PaletteRow.Frequency).sum = 1 :=
  ⟨by norm_num [constRandom],
   (C7_palette Unit constRandom 123 "Irises" "Gogh").1,
   (C7_palette Unit constRandom 123 "Irises" "Gogh").2.2.2 (by norm_num [constRandom])⟩

/-- C10: the function `search_artworks` returns at most ten ids, returns `(0, [])` on
an empty query and on any transport or parsing failure, and, being a total
function into `Nat × List Nat`, never propagates an exception. -/
theorem C10_search_artworks (http : String → Except String SearchResp) (query : String) :
    (search_artworks http query).2.length ≤ 10
    ∧ (query = "" → search_artworks http query = (0, []))
    ∧ (∀ e, http (search_url query) = .error e → search_artworks http query = (0, [])) := by
  refine ⟨?_, ?_, ?_⟩
  · unfold search_artworks
    split_ifs with h
    · simp
    · cases hh : http (search_url query) with
      | error e => simp
      | ok data =>
        cases hoid : data.objectIDs with
        | none => simp [hoid]
        | some o =>
          cases o with
          | none => simp [hoid]
          | some ids =>
            simp only [hoid]
            simp only [List.length_take]
            exact min_le_left _ _
  · intro h
    simp [search_artworks, h]
  · intro e he
    unfold search_artworks
    split_ifs with h
    · rfl
    · rw [he]



/-- Closed instantiation of the C10 theorem on a failing oracle, an empty
query, and an oracle returning twelve ids. -/
theorem C10_search_artworks_witness :
    search_artworks httpDown "monet" = (0, [])
    ∧ search_artworks httpUp "" = (0, [])
    ∧ (search_artworks httpUp "monet").2.length ≤ 10 :=
  ⟨(C10_search_artworks httpDown "monet").2.2 "timeout" rfl,
   (C10_search_artworks httpUp "").2.1 rfl,
   (C10_search_artworks httpUp "monet").1⟩


end MetDashboard
